import Mathlib

/-!
Shallow embedding of `src/src/components/ChatBot.tsx` (the dispatch core of
the ChatBot component): message data model, the `handleSendMessage` dispatch
cycle, the error-classification branch chain, the `dbStats` tracker update,
and `clearChat`.  The asynchronous `handleSendMessage` is split at its await
point into the synchronous acceptance phase (`handleSendMessage` below) and
the resolution phase (`resolveFetch`); the network outcome and the readings
of `Date.now()` are passed in explicitly as environment parameters.
-/

namespace ChatBot

/-- Role of a chat message: the `role: "user" | "assistant"` field of the
`Message` interface (ChatBot.tsx line 28). -/
inductive Role where
  | user
  | assistant
deriving DecidableEq, Repr

/-- The `Message` interface (ChatBot.tsx lines 25-30).  The `id` is produced
from `Date.now()` (an integer millisecond count, modelled as `Nat`); the
`timestamp` comes from `new Date()` at the same instant. -/
structure Message where
  id : Nat
  content : String
  role : Role
  timestamp : Nat
deriving DecidableEq, Repr

/-- The `DbStats` interface (ChatBot.tsx lines 36-41). -/
structure DbStats where
  total_records : Int
  types : List String
  related_records : Option Int := none
  latest_update : Option String := none
deriving DecidableEq, Repr

/-- The component state held by the `useState` hooks (ChatBot.tsx lines
52-58): `messages`, `input`, `isLoading` (the pending flag), `dbStats`,
`isTyping`. -/
structure ChatState where
  messages : List Message
  input : String
  isLoading : Bool
  isTyping : Bool
  dbStats : Option DbStats
deriving DecidableEq, Repr

/-- The initial state of the hooks: empty messages, empty input, not
loading, not typing, no stats (ChatBot.tsx lines 52-58). -/
def initState : ChatState :=
  { messages := [], input := "", isLoading := false, isTyping := false,
    dbStats := none }

/-- One element of the `history` array sent on the wire: the projection
`({ content, role }) => ({ content, role })` of ChatBot.tsx line 98. -/
structure HistoryItem where
  content : String
  role : Role
deriving DecidableEq, Repr

/-- The JSON body of the `POST /api/chat` request (ChatBot.tsx lines
96-99). -/
structure RequestBody where
  message : String
  history : List HistoryItem
deriving DecidableEq, Repr

/-- JavaScript `String.prototype.trim`: strips leading and trailing
whitespace (used by the guard `!text.trim()` at ChatBot.tsx line 76),
modelled over the character list. -/
def jsTrim (s : String) : String :=
  ⟨(((s.toList.dropWhile Char.isWhitespace).reverse).dropWhile
      Char.isWhitespace).reverse⟩

/-- Does the character list `s` start with `pat`? Helper for the substring
check. -/
def startsWithList : List Char → List Char → Bool
  | _, [] => true
  | [], _ :: _ => false
  | c :: cs, p :: ps => c == p && startsWithList cs ps

/-- Does the character list `s` contain `pat` as a contiguous run? Helper
for the substring check. -/
def hasInfixList : List Char → List Char → Bool
  | [], pat => startsWithList [] pat
  | c :: cs, pat => startsWithList (c :: cs) pat || hasInfixList cs pat

/-- JavaScript `String.prototype.includes`: case-sensitive substring
containment, used by the error branch chain (ChatBot.tsx lines 127-133). -/
def strIncludes (s pat : String) : Bool :=
  hasInfixList s.toList pat.toList

/-- Fixed Spanish text for the `model_not_found` branch (lines 128-129). -/
def MSG_MODEL : String :=
  "Hay un problema con el modelo de AI. Por favor, contacta al administrador."

/-- Fixed Spanish text for the `rate_limit` branch (lines 131-132). -/
def MSG_RATE : String :=
  "Estamos procesando demasiadas peticiones. Por favor, espera un momento y vuelve a intentar."

/-- Fixed Spanish text for the `invalid_request_error` branch (lines
134-135). -/
def MSG_INVALID : String :=
  "La solicitud no es válida. Por favor, intenta reformular tu pregunta."

/-- Fixed Spanish text for the catch-all branch (line 137). -/
def MSG_UNKNOWN : String :=
  "Por favor, intenta de nuevo en unos momentos."

/-- Shared generic lead-in of every error message (lines 124-125). -/
def LEAD_IN : String :=
  "Lo siento, hubo un error procesando tu mensaje: "

/-- The spec's error taxonomy (spec section 4.3): one category per branch of
the chain in ChatBot.tsx lines 127-138. -/
inductive ErrorCategory where
  | modelUnavailable
  | rateLimited
  | invalidRequest
  | unknown
deriving DecidableEq, Repr

/-- Category-level classifier over a present raw text: the branch structure
of ChatBot.tsx lines 127-138, first substring match wins. -/
def classifyOf (errorMessage : String) : ErrorCategory :=
  if strIncludes errorMessage "model_not_found" then .modelUnavailable
  else if strIncludes errorMessage "rate_limit" then .rateLimited
  else if strIncludes errorMessage "invalid_request_error" then .invalidRequest
  else .unknown

/-- Classifier on possibly-absent raw text: an absent text is replaced by
the default placeholder before matching, mirroring
`error instanceof Error ? error.message : "Error desconocido"`
(ChatBot.tsx lines 122-123). -/
def classify (rawText : Option String) : ErrorCategory :=
  classifyOf (rawText.getD "Error desconocido")

/-- The fixed localized template each category maps to. -/
def template : ErrorCategory → String
  | .modelUnavailable => MSG_MODEL
  | .rateLimited => MSG_RATE
  | .invalidRequest => MSG_INVALID
  | .unknown => MSG_UNKNOWN

/-- The full user-facing error text built in the catch block (ChatBot.tsx
lines 124-138): the lead-in plus the branch chain's choice. -/
def userFriendlyMessage (errorMessage : String) : String :=
  LEAD_IN ++
    (if strIncludes errorMessage "model_not_found" then MSG_MODEL
     else if strIncludes errorMessage "rate_limit" then MSG_RATE
     else if strIncludes errorMessage "invalid_request_error" then MSG_INVALID
     else MSG_UNKNOWN)

/-- Acceptance phase of `handleSendMessage` (ChatBot.tsx lines 75-100): the
guard `if (!text.trim() || isLoading) return;`, then the optimistic user
append, `setInput("")`, the two flag sets, and the construction of the
request body from the pre-append `messages` closure variable.  Returns the
new state and the issued request (`none` when dropped). -/
def handleSendMessage (s : ChatState) (text : String) (now : Nat) :
    ChatState × Option RequestBody :=
  if jsTrim text = "" ∨ s.isLoading then (s, none)
  else
    let userMessage : Message :=
      { id := now, content := text, role := .user, timestamp := now }
    let s' : ChatState :=
      { s with messages := s.messages ++ [userMessage], input := "",
               isLoading := true, isTyping := true }
    let body : RequestBody :=
      { message := text,
        history := s.messages.map fun m =>
          { content := m.content, role := m.role } }
    (s', some body)

/-- A value caught by the `catch (error)` clause: either a JavaScript
`Error` carrying a message, or any other thrown value (ChatBot.tsx lines
120-123). -/
inductive Thrown where
  | jsError (message : String)
  | nonError
deriving DecidableEq, Repr

/-- The `errorMessage` computed at ChatBot.tsx lines 122-123:
`error instanceof Error ? error.message : "Error desconocido"`. -/
def errMessageOf : Thrown → String
  | .jsError m => m
  | .nonError => "Error desconocido"

/-- Outcome of the awaited `fetch` and `response.json()` (ChatBot.tsx lines
91-106).  `httpNotOk` records the error text of the server's non-success
response body as part of the environment; the code never reads it (it
throws the fixed `Error("Failed to get response")` at line 103). -/
inductive FetchOutcome where
  | fail (e : Thrown)
  | httpNotOk (serverErrorText : String)
  | ok (response : String) (data : Option DbStats)
deriving DecidableEq, Repr

/-- Appending the classified error message as an assistant message
(ChatBot.tsx lines 140-148). -/
def appendErrorMessage (s : ChatState) (errorMessage : String) (now : Nat) :
    ChatState :=
  { s with messages := s.messages ++
      [{ id := now, content := userFriendlyMessage errorMessage,
         role := .assistant, timestamp := now }] }

/-- Resolution phase of `handleSendMessage` (ChatBot.tsx lines 102-155):
success appends the assistant message with id `Date.now() + 1` and, when a
`data` field is present, replaces `dbStats`; a non-ok status throws the
fixed `Error("Failed to get response")` into the catch block; any other
thrown value is classified from its `errorMessage`; the `finally` block
always clears both flags. -/
def resolveFetch (s : ChatState) (o : FetchOutcome) (now : Nat) : ChatState :=
  let s' :=
    match o with
    | .ok resp d =>
        let assistantMessage : Message :=
          { id := now + 1, content := resp, role := .assistant,
            timestamp := now }
        let s1 := { s with messages := s.messages ++ [assistantMessage] }
        match d with
        | some stats => { s1 with dbStats := some stats }
        | none => s1
    | .httpNotOk _ => appendErrorMessage s "Failed to get response" now
    | .fail e => appendErrorMessage s (errMessageOf e) now
  { s' with isLoading := false, isTyping := false }

/-- Does the outcome resolve as a failure (enters the catch block)? -/
def FetchOutcome.isFailure : FetchOutcome → Bool
  | .ok _ _ => false
  | _ => true

/-- `clearChat` (ChatBot.tsx lines 163-168): empties the message sequence;
it touches no other state field (the focus call is a presentation effect). -/
def clearChat (s : ChatState) : ChatState :=
  { s with messages := [] }

/-- The fixed suggested-queries list (ChatBot.tsx lines 43-49). -/
def SUGGESTED_QUERIES : List String :=
  ["¿Cuál es la última imagen en la base de datos?",
   "¿Hay alguna imagen similar a la última subida?",
   "¿Cuál es el sentimiento general de los últimos textos?",
   "Resume los últimos 3 documentos",
   "¿Hay audios en español?"]

/-- Clicking suggestion button `i` calls `handleSendMessage(query)` with the
query string itself (ChatBot.tsx line 322): the same entry point as a typed
submit. -/
def selectSuggestion (s : ChatState) (i : Nat) (now : Nat) :
    ChatState × Option RequestBody :=
  handleSendMessage s (SUGGESTED_QUERIES.getD i "") now

/-- An intent or environment step of a session: a submit/selectSuggestion
call (`send`), the resolution of the in-flight fetch (`resolve`) with its
`Date.now()` reading, or a `clearChat` click.  This is the single-threaded
event order of the component: no two steps overlap (spec section 5). -/
inductive Event where
  | send (text : String) (now : Nat)
  | resolve (o : FetchOutcome) (now : Nat)
  | clear
deriving DecidableEq, Repr

/-- One event applied to the state.  A `resolve` can only belong to an
accepted cycle, which exists exactly when `isLoading` is set, so it is a
no-op otherwise. -/
def stepEvent (s : ChatState) : Event → ChatState
  | .send text now => (handleSendMessage s text now).1
  | .resolve o now => if s.isLoading then resolveFetch s o now else s
  | .clear => clearChat s

/-- Running a list of events from a state: the reachable states of a
session are exactly `runEvents initState evs`. -/
def runEvents (s : ChatState) : List Event → ChatState
  | [] => s
  | e :: rest => runEvents (stepEvent s e) rest

/-- Ghost-instrumented step: alongside the state it counts the dispatch
cycles currently in `PENDING` (accepted but not yet resolved). -/
def stepCount (sc : ChatState × Nat) (e : Event) : ChatState × Nat :=
  match e with
  | .send text now =>
      if jsTrim text = "" ∨ sc.1.isLoading then
        ((handleSendMessage sc.1 text now).1, sc.2)
      else
        ((handleSendMessage sc.1 text now).1, sc.2 + 1)
  | .resolve o now =>
      if sc.1.isLoading then (resolveFetch sc.1 o now, sc.2 - 1) else sc
  | .clear => (clearChat sc.1, sc.2)

/-- Running the instrumented machine from the fresh session. -/
def runCount (evs : List Event) : ChatState × Nat :=
  evs.foldl stepCount (initState, 0)

/-- The ids of the current message sequence, in append order. -/
def idsOf (s : ChatState) : List Nat :=
  s.messages.map Message.id

/-- The clock readings of an event list are separated: each `send` or
`resolve` reads a `Date.now()` at least 2 ms after the previous reading
(`t` is the last reading so far). -/
def timesSeparated : Nat → List Event → Bool
  | _, [] => true
  | t, .send _ n :: rest => t + 2 ≤ n && timesSeparated n rest
  | t, .resolve _ n :: rest => t + 2 ≤ n && timesSeparated n rest
  | t, .clear :: rest => timesSeparated t rest

/-! Helper lemmas shared by the claim theorems. -/

lemma handleSendMessage_dropped (s : ChatState) (text : String) (now : Nat)
    (h : jsTrim text = "" ∨ s.isLoading = true) :
    handleSendMessage s text now = (s, none) := by
  unfold handleSendMessage
  rw [if_pos]
  simpa using h

lemma handleSendMessage_accepted (s : ChatState) (text : String) (now : Nat)
    (ht : ¬ jsTrim text = "") (hl : s.isLoading = false) :
    handleSendMessage s text now =
      ({ s with
          messages := s.messages ++
            [{ id := now, content := text, role := .user, timestamp := now }],
          input := "", isLoading := true, isTyping := true },
       some { message := text,
              history := s.messages.map fun m =>
                { content := m.content, role := m.role } }) := by
  unfold handleSendMessage
  rw [if_neg]
  exact fun h => h.elim ht fun h2 => by simp [hl] at h2

lemma startsWithList_iff (s pat : List Char) :
    startsWithList s pat = true ↔ pat <+: s := by
  induction s generalizing pat with
  | nil =>
    cases pat with
    | nil => simp [startsWithList]
    | cons p ps => simp [startsWithList]
  | cons c cs ih =>
    cases pat with
    | nil => simp [startsWithList]
    | cons p ps =>
      rw [List.cons_prefix_cons]
      simp only [startsWithList, Bool.and_eq_true, beq_iff_eq]
      constructor
      · rintro ⟨h1, h2⟩
        exact ⟨h1.symm, (ih ps).mp h2⟩
      · rintro ⟨h1, h2⟩
        exact ⟨h1.symm, (ih ps).mpr h2⟩

lemma hasInfixList_iff (s pat : List Char) :
    hasInfixList s pat = true ↔ pat <:+: s := by
  induction s with
  | nil =>
    simp [hasInfixList, startsWithList_iff, List.prefix_nil, List.infix_nil]
  | cons c cs ih =>
    simp [hasInfixList, Bool.or_eq_true, startsWithList_iff, ih,
      List.infix_cons_iff]

lemma strIncludes_iff (s pat : String) :
    strIncludes s pat = true ↔ pat.toList <:+: s.toList :=
  hasInfixList_iff s.toList pat.toList

lemma resolveFetch_ok_messages (s : ChatState) (resp : String)
    (d : Option DbStats) (now : Nat) :
    (resolveFetch s (.ok resp d) now).messages =
      s.messages ++
        [{ id := now + 1, content := resp, role := .assistant,
           timestamp := now }] := by
  cases d <;> simp [resolveFetch]

lemma resolveFetch_httpNotOk_eq (s : ChatState) (serverText : String)
    (now : Nat) :
    resolveFetch s (.httpNotOk serverText) now =
      { s with
          messages := s.messages ++
            [{ id := now,
               content := userFriendlyMessage "Failed to get response",
               role := .assistant, timestamp := now }],
          isLoading := false, isTyping := false } := by
  simp [resolveFetch, appendErrorMessage]

lemma resolveFetch_fail_eq (s : ChatState) (e : Thrown) (now : Nat) :
    resolveFetch s (.fail e) now =
      { s with
          messages := s.messages ++
            [{ id := now, content := userFriendlyMessage (errMessageOf e),
               role := .assistant, timestamp := now }],
          isLoading := false, isTyping := false } := by
  simp [resolveFetch, appendErrorMessage]

lemma resolveFetch_isLoading (s : ChatState) (o : FetchOutcome) (now : Nat) :
    (resolveFetch s o now).isLoading = false := by
  cases o with
  | ok resp d => cases d <;> simp [resolveFetch]
  | httpNotOk t => simp [resolveFetch, appendErrorMessage]
  | fail e => simp [resolveFetch, appendErrorMessage]

lemma resolveFetch_isTyping (s : ChatState) (o : FetchOutcome) (now : Nat) :
    (resolveFetch s o now).isTyping = false := by
  cases o with
  | ok resp d => cases d <;> simp [resolveFetch]
  | httpNotOk t => simp [resolveFetch, appendErrorMessage]
  | fail e => simp [resolveFetch, appendErrorMessage]

lemma resolveFetch_messages_append (s : ChatState) (o : FetchOutcome)
    (now : Nat) :
    ∃ m : Message, (resolveFetch s o now).messages = s.messages ++ [m] ∧
      m.role = .assistant ∧ now ≤ m.id ∧ m.id ≤ now + 1 := by
  cases o with
  | ok resp d =>
    exact ⟨_, resolveFetch_ok_messages s resp d now, rfl, Nat.le_succ _,
      Nat.le_refl _⟩
  | httpNotOk t =>
    exact ⟨_, by rw [resolveFetch_httpNotOk_eq], rfl, Nat.le_refl _,
      Nat.le_succ _⟩
  | fail e =>
    exact ⟨_, by rw [resolveFetch_fail_eq], rfl, Nat.le_refl _,
      Nat.le_succ _⟩

/-- The pending-cycle counter always agrees with the `isLoading` flag. -/
lemma stepCount_agrees (sc : ChatState × Nat) (e : Event)
    (h : sc.2 = if sc.1.isLoading then 1 else 0) :
    (stepCount sc e).2 = if (stepCount sc e).1.isLoading then 1 else 0 := by
  cases e with
  | send text n =>
    by_cases hc : jsTrim text = "" ∨ sc.1.isLoading = true
    · have hdrop := handleSendMessage_dropped sc.1 text n hc
      simp only [stepCount, if_pos hc, hdrop]
      exact h
    · have hcc := hc
      push_neg at hcc
      have hload : sc.1.isLoading = false := by simpa using hcc.2
      have hacc := handleSendMessage_accepted sc.1 text n hcc.1 hload
      simp only [stepCount, if_neg hc, hacc]
      simp [h, hload]
  | resolve o n =>
    by_cases hl : sc.1.isLoading = true
    · simp only [stepCount, if_pos hl, resolveFetch_isLoading]
      simp [h, hl]
    · simp only [stepCount, if_neg hl]
      rw [h, if_neg hl]
  | clear =>
    simpa [stepCount, clearChat] using h

lemma foldl_stepCount_agrees (evs : List Event) :
    ∀ sc : ChatState × Nat, sc.2 = (if sc.1.isLoading then 1 else 0) →
      (evs.foldl stepCount sc).2 =
        if (evs.foldl stepCount sc).1.isLoading then 1 else 0 := by
  induction evs with
  | nil => intro sc h; exact h
  | cons e rest ih =>
    intro sc h
    exact ih (stepCount sc e) (stepCount_agrees sc e h)

lemma idsOf_clearChat (s : ChatState) : idsOf (clearChat s) = [] := by
  simp [idsOf, clearChat]

lemma idsOf_resolveFetch (s : ChatState) (o : FetchOutcome) (now : Nat) :
    ∃ i : Nat, idsOf (resolveFetch s o now) = idsOf s ++ [i] ∧
      now ≤ i ∧ i ≤ now + 1 := by
  obtain ⟨m, hm, _, hge, hle⟩ := resolveFetch_messages_append s o now
  exact ⟨m.id, by simp [idsOf, hm], hge, hle⟩

/-- Along any event list whose clock readings are separated by at least
2 ms, the appended message ids stay strictly increasing. -/
lemma ids_pairwise_invariant (evs : List Event) :
    ∀ (s : ChatState) (t : Nat), timesSeparated t evs = true →
      (idsOf s).Pairwise (· < ·) → (∀ i ∈ idsOf s, i ≤ t + 1) →
      (idsOf (runEvents s evs)).Pairwise (· < ·) := by
  induction evs with
  | nil => intro s t _ hp _; exact hp
  | cons e rest ih =>
    intro s t hsep hp hb
    have hrun : runEvents s (e :: rest) = runEvents (stepEvent s e) rest := rfl
    rw [hrun]
    cases e with
    | send text n =>
      obtain ⟨hn, hrest⟩ : t + 2 ≤ n ∧ timesSeparated n rest = true := by
        simpa [timesSeparated] using hsep
      by_cases hc : jsTrim text = "" ∨ s.isLoading = true
      · have hdrop := handleSendMessage_dropped s text n hc
        have hstep : stepEvent s (.send text n) = s := by
          simp [stepEvent, hdrop]
        rw [hstep]
        exact ih s n hrest hp fun i hi => le_trans (hb i hi) (by omega)
      · push_neg at hc
        have hacc := handleSendMessage_accepted s text n hc.1
          (by simpa using hc.2)
        have hstep : idsOf (stepEvent s (.send text n)) = idsOf s ++ [n] := by
          simp [stepEvent, hacc, idsOf]
        apply ih _ n hrest
        · rw [hstep, List.pairwise_append]
          refine ⟨hp, List.pairwise_singleton _ _, ?_⟩
          intro a ha b hb'
          have hbb : b = n := by simpa using hb'
          have := hb a ha
          omega
        · intro i hi
          rw [hstep] at hi
          rcases List.mem_append.mp hi with hi | hi
          · have := hb i hi
            omega
          · have : i = n := by simpa using hi
            omega
    | resolve o n =>
      obtain ⟨hn, hrest⟩ : t + 2 ≤ n ∧ timesSeparated n rest = true := by
        simpa [timesSeparated] using hsep
      by_cases hl : s.isLoading = true
      · have hstep : stepEvent s (.resolve o n) = resolveFetch s o n := by
          simp [stepEvent, hl]
        obtain ⟨i, hi, hige, hile⟩ := idsOf_resolveFetch s o n
        rw [hstep]
        apply ih _ n hrest
        · rw [hi, List.pairwise_append]
          refine ⟨hp, List.pairwise_singleton _ _, ?_⟩
          intro a ha b hb'
          have hbb : b = i := by simpa using hb'
          have := hb a ha
          omega
        · intro j hj
          rw [hi] at hj
          rcases List.mem_append.mp hj with hj | hj
          · have := hb j hj
            omega
          · have : j = i := by simpa using hj
            omega
      · have hstep : stepEvent s (.resolve o n) = s := by
          simp [stepEvent, hl]
        rw [hstep]
        exact ih s n hrest hp fun i hi => le_trans (hb i hi) (by omega)
    | clear =>
      have hstep : stepEvent s .clear = clearChat s := rfl
      rw [hstep]
      have hsep' : timesSeparated t rest = true := by
        simpa [timesSeparated] using hsep
      apply ih _ t hsep'
      · rw [idsOf_clearChat]
        exact List.Pairwise.nil
      · intro i hi
        rw [idsOf_clearChat] at hi
        exact absurd hi (List.not_mem_nil i)

/-! The claim theorems. -/

/-- C1: while `pending` (`isLoading`) is true, a submit or selectSuggestion
intent is dropped as a complete no-op — the whole state (message sequence,
flags, dbStats) is returned unchanged and no request is issued — and along
any event list the ghost count of dispatch cycles in `PENDING` never
exceeds one. -/
theorem pending_guard_drops_send_and_at_most_one_pending :
    (∀ (s : ChatState) (text : String) (now : Nat), s.isLoading = true →
      handleSendMessage s text now = (s, none)) ∧
    (∀ (s : ChatState) (i now : Nat), s.isLoading = true →
      selectSuggestion s i now = (s, none)) ∧
    ∀ evs : List Event, (runCount evs).2 ≤ 1 := by
  refine ⟨fun s text now h => handleSendMessage_dropped s text now (Or.inr h),
    fun s i now h => handleSendMessage_dropped s _ now (Or.inr h), ?_⟩
  intro evs
  have h2 := foldl_stepCount_agrees evs (initState, 0) (by simp [initState])
  show (evs.foldl stepCount (initState, 0)).2 ≤ 1
  rw [h2]
  split <;> omega

/-- Witness for C1: a concrete pending state on which the drop is
evaluated. -/
theorem pending_guard_drops_send_witness :
    handleSendMessage
        { messages := [], input := "", isLoading := true, isTyping := true,
          dbStats := none } "hola" 7 =
      ({ messages := [], input := "", isLoading := true, isTyping := true,
         dbStats := none }, none) :=
  pending_guard_drops_send_and_at_most_one_pending.1 _ "hola" 7 rfl

/-- C2: whatever the outcome of an accepted dispatch cycle, finalization
runs — `pending` and `typing` are cleared — and every failure outcome is
appended to the conversation as an assistant-role message. -/
theorem finalization_always_runs (s : ChatState) (o : FetchOutcome)
    (now : Nat) :
    (resolveFetch s o now).isLoading = false ∧
    (resolveFetch s o now).isTyping = false ∧
    (o.isFailure = true → ∃ m : Message,
      (resolveFetch s o now).messages = s.messages ++ [m] ∧
        m.role = .assistant) := by
  refine ⟨resolveFetch_isLoading s o now, resolveFetch_isTyping s o now,
    fun _ => ?_⟩
  obtain ⟨m, hm, hrole, _, _⟩ := resolveFetch_messages_append s o now
  exact ⟨m, hm, hrole⟩

/-- Witness for C2 at a concrete failing outcome. -/
theorem finalization_always_runs_witness :
    (resolveFetch initState (.fail .nonError) 3).isLoading = false ∧
    (resolveFetch initState (.fail .nonError) 3).isTyping = false ∧
    ∃ m : Message, (resolveFetch initState (.fail .nonError) 3).messages =
      initState.messages ++ [m] ∧ m.role = .assistant := by
  obtain ⟨h1, h2, h3⟩ := finalization_always_runs initState (.fail .nonError) 3
  exact ⟨h1, h2, h3 (by decide)⟩

/-- C3: the classifier is a pure fixed-priority chain of case-sensitive
substring checks — `model_not_found`, then `rate_limit`, then
`invalid_request_error`, else Unknown — an absent raw text is Unknown, the
five concrete examples evaluate as claimed, the code's user-facing text is
the lead-in plus the matched category's template, and the check really is
substring containment. -/
theorem classify_fixed_priority :
    classify (some "model_not_found: x") = .modelUnavailable ∧
    classify (some "rate_limit exceeded") = .rateLimited ∧
    classify (some "invalid_request_error: bad field") = .invalidRequest ∧
    classify (some "boom") = .unknown ∧
    classify none = .unknown ∧
    (∀ msg : String, strIncludes msg "model_not_found" = true →
      classifyOf msg = .modelUnavailable) ∧
    (∀ msg : String, strIncludes msg "model_not_found" = false →
      strIncludes msg "rate_limit" = true → classifyOf msg = .rateLimited) ∧
    (∀ msg : String, strIncludes msg "model_not_found" = false →
      strIncludes msg "rate_limit" = false →
      strIncludes msg "invalid_request_error" = true →
      classifyOf msg = .invalidRequest) ∧
    (∀ msg : String, strIncludes msg "model_not_found" = false →
      strIncludes msg "rate_limit" = false →
      strIncludes msg "invalid_request_error" = false →
      classifyOf msg = .unknown) ∧
    (∀ msg : String,
      userFriendlyMessage msg = LEAD_IN ++ template (classifyOf msg)) ∧
    (∀ s pat : String, strIncludes s pat = true ↔ pat.toList <:+: s.toList) := by
  refine ⟨by decide, by decide, by decide, by decide, by decide,
    ?_, ?_, ?_, ?_, ?_, strIncludes_iff⟩
  · intro msg h
    simp [classifyOf, h]
  · intro msg h1 h2
    simp [classifyOf, h1, h2]
  · intro msg h1 h2 h3
    simp [classifyOf, h1, h2, h3]
  · intro msg h1 h2 h3
    simp [classifyOf, h1, h2, h3]
  · intro msg
    unfold userFriendlyMessage classifyOf template
    split_ifs <;> rfl

/-- Witness for C3: the priority chain evaluated at a concrete text. -/
theorem classify_fixed_priority_witness :
    classifyOf "rate_limit exceeded" = .rateLimited :=
  classify_fixed_priority.2.2.2.2.2.2.1 "rate_limit exceeded"
    (by decide) (by decide)

/-- C4 counterexample: after an accepted send, a non-success status whose
server body says `rate_limit exceeded` is appended as the Unknown-category
message, not as the RateLimited one the server text would classify to —
the code classifies the fixed text `Failed to get response` instead. -/
theorem server_text_not_classified_counterexample :
    (resolveFetch ((handleSendMessage initState "hola" 100).1)
        (.httpNotOk "rate_limit exceeded") 200).messages.map Message.content =
      ["hola", LEAD_IN ++ MSG_UNKNOWN] ∧
    userFriendlyMessage "rate_limit exceeded" = LEAD_IN ++ MSG_RATE ∧
    ¬ (LEAD_IN ++ MSG_UNKNOWN = LEAD_IN ++ MSG_RATE) :=
  ⟨by decide, by decide, by decide⟩

/-- C4 amended: a transport-level failure carries the thrown error's text
(or the default `Error desconocido` when none is present) into the
classifier, but a non-success HTTP status discards the server's error text
and always classifies the fixed text `Failed to get response`, which lands
in the Unknown category. -/
theorem failure_text_classified (s : ChatState) (serverText : String)
    (e : Thrown) (now : Nat) :
    (resolveFetch s (.httpNotOk serverText) now).messages =
      s.messages ++
        [{ id := now,
           content := userFriendlyMessage "Failed to get response",
           role := .assistant, timestamp := now }] ∧
    userFriendlyMessage "Failed to get response" = LEAD_IN ++ MSG_UNKNOWN ∧
    (resolveFetch s (.fail e) now).messages =
      s.messages ++
        [{ id := now,
           content := userFriendlyMessage (errMessageOf e),
           role := .assistant, timestamp := now }] := by
  refine ⟨?_, by decide, ?_⟩
  · rw [resolveFetch_httpNotOk_eq]
  · rw [resolveFetch_fail_eq]

/-- C5: an input that is empty after trimming is dropped as a complete
no-op — unchanged state, no request. -/
theorem empty_input_noop (s : ChatState) (text : String) (now : Nat)
    (h : jsTrim text = "") :
    handleSendMessage s text now = (s, none) :=
  handleSendMessage_dropped s text now (Or.inl h)

/-- Witness for C5 on the whitespace-only input. -/
theorem empty_input_noop_witness :
    handleSendMessage initState "   " 5 = (initState, none) :=
  empty_input_noop initState "   " 5 (by decide)

/-- C6: a success reply carrying a `data` field replaces the tracked
DbStats wholesale, a success reply with no `data` field leaves it exactly
unchanged, and after the claim's concrete two-reply sequence the tracker
holds exactly the first reply's stats. -/
theorem dbStats_wholesale_replacement (s : ChatState) (resp resp2 : String)
    (d : DbStats) (t1 t2 : Nat) :
    (resolveFetch s (.ok resp (some d)) t1).dbStats = some d ∧
    (resolveFetch s (.ok resp none) t1).dbStats = s.dbStats ∧
    (resolveFetch (resolveFetch s
        (.ok "hi" (some { total_records := 5, types := ["image"] })) t1)
      (.ok resp2 none) t2).dbStats =
        some { total_records := 5, types := ["image"] } := by
  refine ⟨by simp [resolveFetch], by simp [resolveFetch], ?_⟩
  simp [resolveFetch]

/-- C7: every accepted dispatch issues exactly one request whose body is
the submitted text together with the pre-append history projected to its
content/role pairs — the `RequestBody` type carries no ids or
timestamps. -/
theorem request_carries_minimal_history (s : ChatState) (text : String)
    (now : Nat) (ht : ¬ jsTrim text = "") (hl : s.isLoading = false) :
    (handleSendMessage s text now).2 =
      some { message := text,
             history := s.messages.map fun m =>
               { content := m.content, role := m.role } } := by
  rw [handleSendMessage_accepted s text now ht hl]

/-- Witness for C7 on a one-message history. -/
theorem request_carries_minimal_history_witness :
    (handleSendMessage
        { initState with
          messages := [{ id := 1, content := "hola",
                         role := .user, timestamp := 1 }] }
        "¿qué tal?" 9).2 =
      some { message := "¿qué tal?",
             history := [{ content := "hola", role := .user }] } := by
  have h := request_carries_minimal_history
    { initState with
      messages := [{ id := 1, content := "hola",
                     role := .user, timestamp := 1 }] }
    "¿qué tal?" 9 (by decide) rfl
  simpa using h

/-- C8: `clearChat` empties the message sequence and leaves the tracked
DbStats exactly as it was. -/
theorem clear_resets_messages_preserves_stats (s : ChatState) :
    (clearChat s).messages = [] ∧ (clearChat s).dbStats = s.dbStats :=
  ⟨rfl, rfl⟩

/-- C9 counterexample: a send accepted at clock reading 100 whose failure
resolves at the same reading yields two distinct messages (a user one and
an assistant one) sharing the id 100 — ids are not unique in this
reachable sequence. -/
theorem message_ids_collide_counterexample :
    idsOf (runEvents initState
        [.send "hola" 100, .resolve (.fail (.jsError "boom")) 100]) =
      [100, 100] ∧
    (runEvents initState
        [.send "hola" 100, .resolve (.fail (.jsError "boom")) 100]).messages.map
      Message.role = [.user, .assistant] ∧
    ¬ (idsOf (runEvents initState
        [.send "hola" 100, .resolve (.fail (.jsError "boom")) 100])).Nodup :=
  ⟨by decide, by decide, by decide⟩

/-- C9 amended: ids are the clock reading at append time (plus one for a
success reply), so when every `send`/`resolve` clock reading exceeds the
previous one by at least 2, the ids along any reachable message sequence
are strictly increasing in append order — hence pairwise distinct and
ordered by creation time.  With coinciding readings (see the
counterexample) distinct messages can share an id. -/
theorem message_ids_ordered_under_separated_clock (evs : List Event)
    (h : timesSeparated 0 evs = true) :
    (idsOf (runEvents initState evs)).Pairwise (· < ·) :=
  ids_pairwise_invariant evs initState 0 h (by simp [idsOf, initState])
    (by simp [idsOf, initState])

/-- Witness for the amended C9 on a concrete separated trace. -/
theorem message_ids_ordered_witness :
    (idsOf (runEvents initState
        [.send "hola" 2, .resolve (.fail .nonError) 4])).Pairwise (· < ·) :=
  message_ids_ordered_under_separated_clock
    [.send "hola" 2, .resolve (.fail .nonError) 4] (by decide)

/-- C10: `clearChat` is accepted while a cycle is pending and neither
cancels it nor touches the flags or stats — after send-then-clear the
session is still `PENDING` — and the in-flight resolution then appends to
the cleared sequence, so a reachable conversation starts with an
assistant message that has no preceding user message. -/
theorem clear_during_pending_orphan_reply :
    (∀ s : ChatState, (clearChat s).messages = [] ∧
      (clearChat s).isLoading = s.isLoading ∧
      (clearChat s).isTyping = s.isTyping ∧
      (clearChat s).dbStats = s.dbStats ∧
      (clearChat s).input = s.input) ∧
    ((runEvents initState [.send "hola" 100, .clear]).isLoading = true ∧
     (runEvents initState [.send "hola" 100, .clear]).isTyping = true) ∧
    ((runEvents initState
        [.send "hola" 100, .clear,
         .resolve (.ok "respuesta" none) 200]).messages.map
      Message.role = [.assistant]) :=
  ⟨fun _ => ⟨rfl, rfl, rfl, rfl, rfl⟩, by decide, by decide⟩

end ChatBot
